import Mathlib

/-!
Verification of the templated multi-stage conversation engine of the
voice_backend repository, as a shallow embedding in Lean 4.

The embedding covers:
* `services/template_history_manager.py` — `TemplateHistoryManager`
  (`select_diverse_template`, `_record_usage`, `_select_by_usage_weight`),
* `routers/flow.py` — the session state machine (`flow_chat`,
  `_handle_voice_input`, `_handle_next_stage`, the `RESTART` branch,
  `_generate_openai_response_with_tts`),
* `services/openai_service.py` — `_combine_audio_files`,
  `_find_audio_url_for_text` and the category-parsing step of
  `_analyze_user_message_with_openai`.

External collaborators (the OpenAI chat/TTS client, HTTP download,
object-storage upload, MD5 hashing, `random`, `time`) are modelled as
oracle parameters: each oracle returns `Option`/`Bool` so that every
possible outcome of the external call (success or raised exception) is a
value the theorems quantify over.  Python `try/except` blocks become
`Option`/`Except` plumbing; Python dictionaries become association lists
read through `List.lookup`; `collections.deque(maxlen=n)` becomes a list
that drops its oldest (front) elements past `n`.  Logging, timestamps
stored only for logs, and file I/O have no observable effect on any claim
and are omitted.
-/

namespace VoiceBackend

/-! ## Template history manager (`services/template_history_manager.py`) -/

/-- `collections.defaultdict(int)` increment `d[k] += 1`. -/
def bumpUsage : List (String × Nat) → String → List (String × Nat)
  | [], k => [(k, 1)]
  | (k', v) :: rest, k => if k' = k then (k', v + 1) :: rest else (k', v) :: bumpUsage rest k

/-- Dictionary write `d[k] = v`. -/
def setAssoc : List (String × Nat) → String → Nat → List (String × Nat)
  | [], k, v => [(k, v)]
  | (k', v') :: rest, k, v => if k' = k then (k', v) :: rest else (k', v') :: setAssoc rest k v

/-- `self.usage_count.get(t, 0)` (a `defaultdict(int)` read). -/
def lookupUsage (usage : List (String × Nat)) (k : String) : Nat :=
  (List.lookup k usage).getD 0

/-- The mutable state of `TemplateHistoryManager.__init__` (`max_history_size`
defaults to 10 in the source).  `last_used` holds `time.time()` values, here
abstract `Nat` ticks. -/
structure THMState where
  maxHistorySize : Nat
  recentReactions : List String
  recentEmotions : List String
  recentContinuations : List String
  recentStarters : List String
  recentGreetings : List String
  usageCount : List (String × Nat)
  lastUsedTime : List (String × Nat)
  lastReaction : Option String
  lastEmotion : Option String
  lastContinuation : Option String
  lastStarter : Option String
  lastGreeting : Option String
deriving DecidableEq

/-- A fresh manager (`TemplateHistoryManager(max_history_size)`). -/
def THMState.init (maxHistorySize : Nat) : THMState :=
  ⟨maxHistorySize, [], [], [], [], [], [], [], none, none, none, none, none⟩

/-- `deque(maxlen=maxlen).append(x)`: push at the back, silently dropping the
oldest (front) entries beyond the capacity. -/
def dequeAppend (maxlen : Nat) (q : List String) (x : String) : List String :=
  let q' := q ++ [x]
  if maxlen < q'.length then q'.drop (q'.length - maxlen) else q'

/-- `_get_recent_history` (the source returns `set(...)`; only membership in
the returned value is ever used, so the queue itself is returned here). -/
def getRecentHistory (st : THMState) (category : String) : List String :=
  if category = "reaction" then st.recentReactions
  else if category = "emotion" then st.recentEmotions
  else if category = "continuation" then st.recentContinuations
  else if category = "starter" then st.recentStarters
  else if category = "greeting" then st.recentGreetings
  else []

/-- `_get_last_used`. -/
def getLastUsed (st : THMState) (category : String) : Option String :=
  if category = "reaction" then st.lastReaction
  else if category = "emotion" then st.lastEmotion
  else if category = "continuation" then st.lastContinuation
  else if category = "starter" then st.lastStarter
  else if category = "greeting" then st.lastGreeting
  else none

/-- `_record_usage(template, category)` at clock time `now`. -/
def recordUsage (st : THMState) (template : String) (category : String) (now : Nat) : THMState :=
  let st1 := { st with usageCount := bumpUsage st.usageCount template,
                       lastUsedTime := setAssoc st.lastUsedTime template now }
  if category = "reaction" then
    { st1 with recentReactions := dequeAppend st1.maxHistorySize st1.recentReactions template,
               lastReaction := some template }
  else if category = "emotion" then
    { st1 with recentEmotions := dequeAppend st1.maxHistorySize st1.recentEmotions template,
               lastEmotion := some template }
  else if category = "continuation" then
    { st1 with recentContinuations := dequeAppend st1.maxHistorySize st1.recentContinuations template,
               lastContinuation := some template }
  else if category = "starter" then
    { st1 with recentStarters := dequeAppend st1.maxHistorySize st1.recentStarters template,
               lastStarter := some template }
  else if category = "greeting" then
    { st1 with recentGreetings := dequeAppend st1.maxHistorySize st1.recentGreetings template,
               lastGreeting := some template }
  else st1

/-- Lines 156–160 of `_select_by_usage_weight`: the clamped usage counts
(`max(1, usage_count.get(t, 0))`) and the weights
`max_usage - count + 1` computed from them. -/
def usageWeights (usage : List (String × Nat)) (templates : List String) : List Nat :=
  let usageCounts := templates.map (fun t => max 1 (lookupUsage usage t))
  let maxUsage := usageCounts.foldl max 0
  usageCounts.map (fun count => maxUsage - count + 1)

/-- `random.choice(l)` with the draw supplied as an arbitrary natural `c`
(reduced mod the length); `none` models the `IndexError` raised on an empty
list. -/
def pyChoice (l : List String) (c : Nat) : Option String :=
  l.get? (c % l.length)

/-- The cumulative-weight loop of `_select_by_usage_weight` (lines 168–177):
walk the candidates accumulating weights, returning the first whose cumulative
weight reaches the drawn value `r` (`random.uniform(0, total_weight)`). -/
def roulettePick : List (String × Nat) → ℚ → ℚ → Option String
  | [], _, _ => none
  | (t, w) :: rest, r, cum =>
      if r ≤ cum + (w : ℚ) then some t else roulettePick rest r (cum + (w : ℚ))

/-- `_select_by_usage_weight(templates)`.  `none` models the `ValueError`
`max([])` raises on an empty list (that call is unreachable from
`select_diverse_template`, which only enters this step with more than one
candidate).  `r` is the `random.uniform(0, total_weight)` draw and `c` the
`random.choice` draw of the dead `total_weight == 0` branch. -/
def selectByUsageWeight (usage : List (String × Nat)) : List String → Nat → ℚ → Option String
  | [], _, _ => none
  | [t], _, _ => some t
  | templates, c, r =>
      let weights := usageWeights usage templates
      let totalWeight := weights.sum
      if totalWeight = 0 then pyChoice templates c
      else
        match roulettePick (templates.zip weights) r 0 with
        | some t => some t
        | none => templates.getLast?

/-- Step 1 of `select_diverse_template`: drop recently used candidates unless
that would empty the pool. -/
def availableAfterRecent (st : THMState) (templates : List String) (category : String)
    (avoidRecent : Bool) : List String :=
  if avoidRecent then
    let recent := getRecentHistory st category
    let nonRecent := templates.filter (fun t => !(recent.contains t))
    if nonRecent.isEmpty then templates else nonRecent
  else templates

/-- Step 2 of `select_diverse_template`: drop the category's last-selected
value when it is truthy, present, and more than one candidate remains. -/
def availableAfterLast (st : THMState) (available : List String) (category : String) :
    List String :=
  match getLastUsed st category with
  | some lastUsed =>
      if lastUsed ≠ "" ∧ lastUsed ∈ available ∧ 1 < available.length then
        available.filter (fun t => !(t == lastUsed))
      else available
  | none => available

/-- Step 3 of `select_diverse_template`: weighted selection when
`prefer_less_used` and more than one candidate remains, else
`random.choice`. -/
def selectedCandidate (usage : List (String × Nat)) (available : List String)
    (preferLessUsed : Bool) (c : Nat) (r : ℚ) : Option String :=
  if preferLessUsed = true ∧ 1 < available.length then
    selectByUsageWeight usage available c r
  else pyChoice available c

/-- `select_diverse_template(templates, category, avoid_recent, prefer_less_used)`
(both flags default to `True` in the source).  Returns the selected template
together with the updated manager state; `none` models an uncaught exception
(`random.choice([])`, reachable only when duplicate candidates equal to the
last-selected value empty the pool in step 2). -/
def selectDiverseTemplate (st : THMState) (templates : List String) (category : String)
    (avoidRecent preferLessUsed : Bool) (now c : Nat) (r : ℚ) :
    Option (String × THMState) :=
  if templates.isEmpty then some ("", st)
  else if templates.length = 1 then
    (templates.get? 0).map (fun t => (t, recordUsage st t category now))
  else
    let avail₁ := availableAfterRecent st templates category avoidRecent
    let avail₂ := availableAfterLast st avail₁ category
    (selectedCandidate st.usageCount avail₂ preferLessUsed c r).map
      (fun sel => (sel, recordUsage st sel category now))

/-- The weight formula the spec states for `_select_by_usage_weight`
(`weight(candidate) = max usage-count among remaining − usage-count + 1`,
with a never-selected candidate counting 0).  Modelled from the spec for
comparison with `usageWeights`, which is translated from the source. -/
def specUsageWeights (usage : List (String × Nat)) (templates : List String) : List Nat :=
  let usageCounts := templates.map (fun t => lookupUsage usage t)
  let maxUsage := usageCounts.foldl max 0
  usageCounts.map (fun count => maxUsage - count + 1)

/-! ## Conversation session machine (`routers/flow.py`) -/

/-- The `ConversationStage` enum (lines 22–31).  Note: it has **no** `RESTART`
member, although `flow_chat` and `_generate_openai_response_with_tts` both
reference `ConversationStage.RESTART`. -/
inductive ConversationStage where
  | EMOTION_SELECTION
  | STARTER
  | PROMPT_CAUSE
  | USER_ANSWER
  | PARAPHRASE
  | EMPATHY_VOCAB
  | USER_REPEAT
  | FINISHER
  | COMPLETED
deriving DecidableEq

/-- Python attribute access `ConversationStage.<name>`: `some` for the nine
declared members, `none` for anything else (an `AttributeError` in Python —
in particular `conversationStageMember "RESTART" = none`). -/
def conversationStageMember (name : String) : Option ConversationStage :=
  if name = "EMOTION_SELECTION" then some .EMOTION_SELECTION
  else if name = "STARTER" then some .STARTER
  else if name = "PROMPT_CAUSE" then some .PROMPT_CAUSE
  else if name = "USER_ANSWER" then some .USER_ANSWER
  else if name = "PARAPHRASE" then some .PARAPHRASE
  else if name = "EMPATHY_VOCAB" then some .EMPATHY_VOCAB
  else if name = "USER_REPEAT" then some .USER_REPEAT
  else if name = "FINISHER" then some .FINISHER
  else if name = "COMPLETED" then some .COMPLETED
  else none

/-- The `FlowAction` enum. -/
inductive FlowAction where
  | PICK_EMOTION
  | NEXT_STAGE
  | VOICE_INPUT
  | RESTART
deriving DecidableEq

/-- `models/api_models.py` `LearnWord` (`example` is a Lean keyword, hence
`exampleSentence`; the source field order is word, meaning, example,
pronunciation). -/
structure LearnWord where
  word : String
  meaning : String
  exampleSentence : Option String
  pronunciation : Option String
deriving DecidableEq

/-- `ConversationSession` (the fields the engine reads or writes; the
`conversation_log` audit structure is log-only and omitted).  Timestamps are
abstract `Nat` ticks. -/
structure Session where
  sessionId : String
  emotion : String
  fromLang : String
  toLang : String
  topic : Option String
  subTopic : Option String
  keyword : Option String
  stage : ConversationStage
  learnedExpressions : List LearnWord
  userAnswers : List String
  userInputCount : Nat
  createdAt : Nat
  updatedAt : Nat
deriving DecidableEq

/-- `ConversationSession.__init__`. -/
def Session.create (sessionId emotion fromLang toLang : String)
    (topic subTopic keyword : Option String) (now : Nat) : Session :=
  ⟨sessionId, emotion, fromLang, toLang, topic, subTopic, keyword,
   .STARTER, [], [], 0, now, now⟩

/-- `FlowChatResponse` (the `stt_feedback` field is never set and omitted). -/
structure FlowChatResponse where
  sessionId : String
  stage : ConversationStage
  responseText : String
  audioUrl : Option String
  targetWords : Option (List LearnWord)
  completed : Bool
  nextAction : Option String
deriving DecidableEq

/-- A FastAPI `HTTPException(status_code, detail)`. -/
structure HTTPError where
  status : Nat
  detail : String
deriving DecidableEq

/-- One `learned_expressions` entry of the parsed unified-call JSON
(each `.get(key, "")` read is an `Option` field here; `none` = key absent). -/
structure RawExpr where
  word : Option String
  meaning : Option String
  pronunciation : Option String
  exampleSentence : Option String

/-- The parsed JSON of the unified OpenAI call in `_handle_voice_input`. -/
structure UnifiedParsed where
  response : Option String
  learnedExpressions : Option (List RawExpr)

/-- The external calls of `routers/flow.py`, as oracles.  `none` models a
raised exception (or, for `unified`, unparseable JSON as well): the theorems
quantify over every oracle, hence over every outcome of the external call. -/
structure FlowOracles where
  genText : ConversationStage → Option String
  tts : String → Option String
  unified : String → Option UnifiedParsed

/-- Python truthiness of an `Optional[bool]`. -/
def truthy : Option Bool → Bool
  | some b => b
  | none => false

/-- Python truthiness of an `Optional[str]`. -/
def optTruthyStr : Option String → Bool
  | some s => !(s == "")
  | none => false

/-- Python `str(x)` on an `Optional[str]` inside an f-string (`None` prints as
`"None"`). -/
def pyStr : Option String → String
  | some s => s
  | none => "None"

/-- `expr_data.get(k, "").replace('**', '').replace('##', '').strip()`. -/
def cleanField (s : String) : String :=
  ((s.replace "**" "").replace "##" "").trim

/-- Lines 651–665 of `_handle_voice_input`: turn the parsed expression dicts
into `LearnWord`s, dropping entries whose cleaned `word` is empty. -/
def buildLearnWords (data : List RawExpr) : List LearnWord :=
  data.filterMap (fun e =>
    let word := cleanField (e.word.getD "")
    let meaning := cleanField (e.meaning.getD "")
    let pronunciation := cleanField (e.pronunciation.getD "")
    let ex := cleanField (e.exampleSentence.getD "")
    if word = "" then none else some ⟨word, meaning, some ex, some pronunciation⟩)

/-- `if is_tts_enabled: try tts except: pass` — the audio URL attached to a
response (`none` when TTS is disabled or the TTS call raised). -/
def ttsOpt (o : FlowOracles) (isTts : Option Bool) (text : String) : Option String :=
  if truthy isTts then o.tts text else none

/-- The emergency fallback text of `_generate_openai_response_with_tts` for
`STARTER` (line 1172). -/
def starterFallbackText (s : Session) : String :=
  "안녕하세요! 최근에 " ++ s.emotion ++ "을 느낀 적이 있나요?"

/-- The emergency fallback text of `_generate_openai_response_with_tts` for
`FINISHER` (line 1174). -/
def finisherFallbackText (s : Session) : String :=
  s.emotion ++ " 감정에 대해 이야기해주셔서 감사해요. 새로운 expressions를 잘 배우셨어요!"

/-- `_generate_openai_response_with_tts(session, stage, ...)`.  The prompt text
sent to the LLM is absorbed into the `genText` oracle.  For any stage other
than `STARTER`/`FINISHER` both the prompt construction (line 1120) and the
fallback chain (line 1175) evaluate `ConversationStage.RESTART`, which does
not exist, so the call raises `AttributeError` (`.error`).  The dead
`some`-branch below is unreachable because
`conversationStageMember "RESTART" = none`. -/
def generateOpenaiResponseWithTts (o : FlowOracles) (s : Session)
    (stage : ConversationStage) (isTts : Option Bool) :
    Except String (String × Option String) :=
  if stage = .STARTER then
    match o.genText .STARTER with
    | some text => .ok (text, ttsOpt o isTts text)
    | none => .ok (starterFallbackText s, ttsOpt o isTts (starterFallbackText s))
  else if stage = .FINISHER then
    match o.genText .FINISHER with
    | some text => .ok (text, ttsOpt o isTts text)
    | none => .ok (finisherFallbackText s, ttsOpt o isTts (finisherFallbackText s))
  else
    match conversationStageMember "RESTART" with
    | some _ => .error "unreachable: ConversationStage has no RESTART member"
    | none => .error "RESTART"

/-- Fallback `paraphrase_text` of `_handle_voice_input` (lines 676–685). -/
def fallbackParaphrase (s : Session) : String :=
  if s.fromLang.toLower = "korean" then
    "아, " ++ s.emotion ++ " 감정이시군요! " ++
      "'I feel " ++ s.emotion ++ "'라고 말할 수 있어요. " ++
      "다른 경험도 더 얘기해주세요!"
  else
    "Oh, you're feeling " ++ s.emotion ++ "! " ++
      "You can say 'I feel " ++ s.emotion ++ "' in " ++ s.toLang ++ ". " ++
      "Please tell me more about your experience!"

/-- Fallback `basic_expressions` of `_handle_voice_input` (lines 688–727). -/
def fallbackExpressions (s : Session) : List LearnWord :=
  if s.toLang.toLower = "english" then
    [⟨"I feel " ++ s.emotion,
      if s.fromLang.toLower = "korean" then "나는 " ++ s.emotion ++ "을 느껴요"
      else "I am feeling " ++ s.emotion,
      some ("I feel " ++ s.emotion ++ " when good things happen."),
      some (if s.fromLang.toLower = "korean" then "아이 필 " ++ s.emotion
            else "I feel " ++ s.emotion)⟩,
     ⟨"when",
      if s.fromLang.toLower = "korean" then "~할 때" else "at the time that",
      some "I feel happy when I see my friends.",
      some (if s.fromLang.toLower = "korean" then "웬" else "when")⟩]
  else if s.toLang.toLower = "spanish" then
    [⟨"Me siento " ++ s.emotion,
      if s.fromLang.toLower = "korean" then "나는 " ++ s.emotion ++ "을 느껴요"
      else "I feel " ++ s.emotion,
      some ("Me siento " ++ s.emotion ++ " cuando pasan cosas buenas."),
      some (if s.fromLang.toLower = "korean" then "메 시엔토 " ++ s.emotion
            else "Me siento " ++ s.emotion)⟩,
     ⟨"cuando",
      if s.fromLang.toLower = "korean" then "~할 때" else "when",
      some "Me siento feliz cuando veo a mis amigos.",
      some (if s.fromLang.toLower = "korean" then "쿠안도" else "cuando")⟩]
  else
    [⟨"I feel " ++ s.emotion ++ " (in " ++ s.toLang ++ ")",
      if s.fromLang.toLower = "korean" then "나는 " ++ s.emotion ++ "을 느껴요"
      else "I feel " ++ s.emotion,
      some ("Example sentence in " ++ s.toLang ++ "."),
      some ("Pronunciation in " ++ s.toLang)⟩]

/-- `_handle_voice_input(session, user_input, ...)`.  Returns the session as
left in the store (Python mutates it in place, so updates made before an
exception persist) together with the handler's outcome. -/
def handleVoiceInput (o : FlowOracles) (s : Session) (userInput : String)
    (isTts : Option Bool) : Session × Except HTTPError FlowChatResponse :=
  let s1 := { s with userInputCount := s.userInputCount + 1,
                     userAnswers := s.userAnswers ++ [userInput] }
  if 7 ≤ s1.userInputCount then
    let s2 := { s1 with stage := ConversationStage.FINISHER }
    match generateOpenaiResponseWithTts o s2 .FINISHER isTts with
    | .ok (text, audio) =>
        (s2, .ok ⟨s2.sessionId, .FINISHER, text, audio, none, true,
                  some "Conversation completed! Your learned expressions have been saved."⟩)
    | .error e => (s2, .error ⟨500, "Internal server error: " ++ e⟩)
  else if s1.stage = .STARTER ∨ s1.stage = .PARAPHRASE then
    let s2 := { s1 with stage := ConversationStage.PARAPHRASE }
    let step :=
      match o.unified userInput with
      | some parsed =>
          let exprs := buildLearnWords (parsed.learnedExpressions.getD [])
          (parsed.response.getD "", { s2 with learnedExpressions := exprs })
      | none =>
          (fallbackParaphrase s2, { s2 with learnedExpressions := fallbackExpressions s2 })
    let s3 := step.2
    (s3, .ok ⟨s3.sessionId, .PARAPHRASE, step.1, ttsOpt o isTts step.1,
              some s3.learnedExpressions, false,
              some "Use next_stage to learn new expressions and get next question"⟩)
  else
    (s1, .error ⟨400, "Voice input not expected at current stage"⟩)

/-- Lines 473–478 of `_handle_next_stage`: the enumerated learned-expression
text (`str(None)` prints `"None"` for a missing pronunciation, as in the
source's f-string). -/
def expressionsText (l : List LearnWord) : String :=
  if l.isEmpty then "새로운 expressions가 없어요."
  else String.join (l.enum.map (fun p =>
    toString (p.1 + 1) ++ ". " ++ p.2.word ++ " - " ++ p.2.meaning ++
      " (" ++ pyStr p.2.pronunciation ++ ")\n"))

/-- `_handle_next_stage(session, ...)`. -/
def handleNextStage (o : FlowOracles) (s : Session) (isTts : Option Bool) :
    Session × Except HTTPError FlowChatResponse :=
  if s.stage = ConversationStage.STARTER then
    let text := "좋아요! 최근에 " ++ s.emotion ++ "을 느낀 경험을 말해주세요."
    (s, .ok ⟨s.sessionId, .STARTER, text, ttsOpt o isTts text, none, false,
             some "감정에 대해 음성으로 이야기해주세요"⟩)
  else if s.stage = ConversationStage.PARAPHRASE then
    let text := "새로운 expressions를 배워봐요:\n\n" ++
      expressionsText s.learnedExpressions ++ "\n따라해보세요!"
    (s, .ok ⟨s.sessionId, .PARAPHRASE, text, ttsOpt o isTts text,
             some s.learnedExpressions, false,
             some "따라해보신 후 음성으로 다음 이야기를 들려주세요"⟩)
  else
    (s, .error ⟨400, "Cannot proceed to next stage from current stage"⟩)

/-- Lines 393–396 of the `RESTART` branch of `flow_chat`: the in-place reset. -/
def restartSession (s : Session) : Session :=
  { s with stage := ConversationStage.STARTER, userAnswers := [],
           learnedExpressions := [], userInputCount := 0 }

/-- The `RESTART` branch of `flow_chat` (lines 392–416).  After the in-place
reset, line 407 evaluates `ConversationStage.RESTART`, which does not exist:
the `AttributeError` (whose `str` is `"RESTART"`) escapes to the generic
handler at line 432, producing `HTTPException(500, "Internal server error: RESTART")`.
The session keeps the reset made before the exception. -/
def handleRestart (o : FlowOracles) (s : Session) (isTts : Option Bool) :
    Session × Except HTTPError FlowChatResponse :=
  let s2 := restartSession s
  match conversationStageMember "RESTART" with
  | some restartStage =>
      match generateOpenaiResponseWithTts o s2 restartStage isTts with
      | .ok (text, audio) =>
          (s2, .ok ⟨s2.sessionId, .STARTER, text, audio, none, false,
                    some "Please tell me about what made you feel this way using voice input"⟩)
      | .error e => (s2, .error ⟨500, "Internal server error: " ++ e⟩)
  | none => (s2, .error ⟨500, "Internal server error: RESTART"⟩)

/-- The request body of `POST /flow-chat` (the `user_language`/`ai_language`
aliases are resolved by the request layer and omitted). -/
structure FlowChatRequest where
  sessionId : Option String
  action : FlowAction
  userInput : Option String
  emotion : Option String
  fromLang : String
  toLang : String
  isTtsEnabled : Option Bool
  topic : Option String
  subTopic : Option String
  keyword : Option String

/-- Dictionary write on the in-memory session store. -/
def setStore : List (String × Session) → String → Session → List (String × Session)
  | [], k, v => [(k, v)]
  | (k', v') :: rest, k, v =>
      if k' = k then (k', v) :: rest else (k', v') :: setStore rest k v

/-- `flow_chat(request)`: session creation/lookup and dispatch (lines 317–435).
`newSessionId` stands for `str(uuid.uuid4())` and `now` for `datetime.now()`.
Returns the updated store and the HTTP outcome.  The inner `PICK_EMOTION`
case is unreachable (that action is dispatched before the lookup). -/
def flowChat (o : FlowOracles) (newSessionId : String) (now : Nat)
    (sessions : List (String × Session)) (req : FlowChatRequest) :
    List (String × Session) × Except HTTPError FlowChatResponse :=
  if req.action = FlowAction.PICK_EMOTION then
    if !(optTruthyStr req.emotion) then
      (sessions, .error ⟨400, "Emotion is required for pick_emotion action"⟩)
    else
      let session := Session.create newSessionId ((req.emotion.getD "").toLower)
        req.fromLang req.toLang req.topic req.subTopic req.keyword now
      let sessions2 := setStore sessions newSessionId session
      match generateOpenaiResponseWithTts o session .STARTER req.isTtsEnabled with
      | .ok (text, audio) =>
          (sessions2, .ok ⟨newSessionId, .STARTER, text, audio, none, false,
                           some "Please tell me about what made you feel this way using voice input"⟩)
      | .error e => (sessions2, .error ⟨500, "Internal server error: " ++ e⟩)
  else
    match req.sessionId with
    | none => (sessions, .error ⟨404, "Session not found"⟩)
    | some sid =>
        if sid = "" then (sessions, .error ⟨404, "Session not found"⟩)
        else
          match List.lookup sid sessions with
          | none => (sessions, .error ⟨404, "Session not found"⟩)
          | some found =>
              let s := { found with updatedAt := now }
              match req.action with
              | .NEXT_STAGE =>
                  let r := handleNextStage o s req.isTtsEnabled
                  (setStore sessions sid r.1, r.2)
              | .VOICE_INPUT =>
                  if !(optTruthyStr req.userInput) then
                    (setStore sessions sid s,
                     .error ⟨400, "User input is required for voice_input action"⟩)
                  else
                    let r := handleVoiceInput o s (req.userInput.getD "") req.isTtsEnabled
                    (setStore sessions sid r.1, r.2)
              | .RESTART =>
                  let r := handleRestart o s req.isTtsEnabled
                  (setStore sessions sid r.1, r.2)
              | .PICK_EMOTION => (sessions, .error ⟨400, "Invalid action"⟩)

/-! ## Audio assembler (`openai_service._combine_audio_files`) -/

/-- The external operations `_combine_audio_files` performs, as oracles over
abstract byte (`β`) and audio-segment (`σ`) types: `download` is
`_download_audio_file` (`none` = failed download), `decode` is
`AudioSegment.from_mp3` (`none` = decode error), `silence` is
`AudioSegment.silent(duration=500)`, `concat` is `AudioSegment.__add__`,
`exportMp3` is `export(..., format="mp3", bitrate="128k")` read back,
`md5hex8` is `hashlib.md5(...).hexdigest()[:8]`, and `upload` is
`r2_service.upload_file` (its success flag). -/
structure AudioEnv (β σ : Type) where
  download : String → Option β
  decode : β → Option σ
  silence : σ
  concat : σ → σ → σ
  exportMp3 : σ → β
  md5hex8 : β → String
  upload : β → String → Bool

/-- `_combine_audio_files(audio_urls)` at epoch second `ts` (`int(time.time())`).
The whole body is wrapped in `try/except → None` in the source, so the result
is an `Option`: every internal failure yields `none`, never an exception to
the caller. -/
def combineAudioFiles {β σ : Type} (env : AudioEnv β σ) (ts : Nat)
    (audioUrls : List String) : Option String :=
  let validUrls := audioUrls.filter (fun u => !(u == ""))
  match validUrls with
  | [] => none
  | [u] => some u
  | us =>
      let audioSegments := us.filterMap (fun u => (env.download u).bind env.decode)
      match audioSegments with
      | [] => none
      | s0 :: rest =>
          let combined := rest.foldl (fun acc seg => env.concat (env.concat acc env.silence) seg) s0
          let data := env.exportMp3 combined
          let path := "conversation_starters/combined_audio/" ++ toString ts ++ "_" ++
            env.md5hex8 data ++ ".mp3"
          if env.upload data path then some ("https://voice.kreators.dev/" ++ path)
          else none

/-! ## Audio locator (`openai_service._find_audio_url_for_text`) -/

/-- One section of `audio_metadata.json`: `"from_<lang>"` key → language key →
ordered URL list. -/
def LangSection : Type := List (String × List (String × List String))

/-- The `_audio_metadata` dictionary.  A `none` field models the key being
absent from the JSON (every read in the source is `.get(key, {})`). -/
structure AudioMetadata where
  greetings : Option LangSection
  reactions : Option (List (String × LangSection))
  emotions : Option (List (String × LangSection))
  continuations : Option (List (String × LangSection))
  topics : Option (List (String × LangSection))

/-- Python truthiness `not self._audio_metadata`: the dictionary has no keys. -/
def AudioMetadata.isEmpty (m : AudioMetadata) : Bool :=
  m.greetings.isNone && m.reactions.isNone && m.emotions.isNone &&
    m.continuations.isNone && m.topics.isNone

/-- `category.split("/")[-1] if "/" in category else category`. -/
def lastPathComponent (s : String) : String :=
  if s.contains '/' then (s.splitOn "/").getLastD s else s

/-- Python substring test `needle in hay`. -/
def isSubstrOf (needle hay : String) : Bool :=
  hay.toList.tails.any (fun t => needle.toList.isPrefixOf t)

/-- The category dispatch of `_find_audio_url_for_text` (lines 877–894). -/
def sectionForCategory (m : AudioMetadata) (category : String) : LangSection :=
  if category = "greetings" then m.greetings.getD []
  else if category.startsWith "reactions/" then
    (List.lookup (lastPathComponent category) (m.reactions.getD [])).getD []
  else if category.startsWith "emotions/" then
    (List.lookup (lastPathComponent category) (m.emotions.getD [])).getD []
  else if category.startsWith "continuations/" then
    (List.lookup (lastPathComponent category) (m.continuations.getD [])).getD []
  else
    (List.lookup (lastPathComponent category) (m.topics.getD [])).getD []

/-- The language bucket `_find_audio_url_for_text` scans:
`metadata_section["from_<from_lang>"].get(from_lang, [])` (empty when the
`from_` key itself is absent, in which case the source returns early). -/
def audioBucket (m : AudioMetadata) (category fromLang : String) : List String :=
  match List.lookup ("from_" ++ fromLang) (sectionForCategory m category) with
  | none => []
  | some inner => (List.lookup fromLang inner).getD []

/-- `_find_audio_url_for_text(text, category, from_lang, to_lang)`.
`hash` stands for `_get_text_hash` (`hashlib.md5(text).hexdigest()[:8]`),
supplied as an oracle.  Note the source reads `from_lang` for both levels of
the language lookup; `toLang` is accepted and never consulted. -/
def findAudioUrlForText (hash : String → String) (m : AudioMetadata)
    (text category fromLang toLang : String) : Option String :=
  if m.isEmpty then none
  else
    match List.lookup ("from_" ++ fromLang) (sectionForCategory m category) with
    | none => none
    | some inner =>
        let langSection := (List.lookup fromLang inner).getD []
        let textHash := hash text
        match langSection.find? (fun url => !(url == "") && isSubstrOf textHash url) with
        | some url => some url
        | none => langSection.head?

/-! ## Category classifier (`openai_service._analyze_user_message_with_openai`,
lines 650–686) -/

/-- `models/api_models.py` `ReactionCategory` (each member's value equals its
name). -/
inductive ReactionCategory where
  | EMPATHY
  | ACCEPTANCE
  | SURPRISE
  | COMFORT
  | JOY_SHARING
  | CONFIRMATION
  | SLOW_QUESTIONING
deriving DecidableEq

/-- `models/api_models.py` `EmotionCategory`. -/
inductive EmotionCategory where
  | HAPPY
  | SAD
  | ANGRY
  | SCARED
  | SHY
  | SLEEPY
  | UPSET
  | CONFUSED
  | BORED
  | LOVE
  | PROUD
  | NERVOUS
deriving DecidableEq

/-- `models/api_models.py` `ContinuationCategory`. -/
inductive ContinuationCategory where
  | EMOTION_EXPLORATION
  | EMOTION_ACTION
  | EMOTION_LEARNING
  | QUESTION_EXPANSION
  | ENCOURAGEMENT_FLOW
  | EMOTION_TRANSITION
deriving DecidableEq

/-- `ReactionCategory(value)`: `none` models the `ValueError` for an
unrecognized value. -/
def reactionCategoryOfString (s : String) : Option ReactionCategory :=
  if s = "EMPATHY" then some .EMPATHY
  else if s = "ACCEPTANCE" then some .ACCEPTANCE
  else if s = "SURPRISE" then some .SURPRISE
  else if s = "COMFORT" then some .COMFORT
  else if s = "JOY_SHARING" then some .JOY_SHARING
  else if s = "CONFIRMATION" then some .CONFIRMATION
  else if s = "SLOW_QUESTIONING" then some .SLOW_QUESTIONING
  else none

/-- `EmotionCategory(value)`. -/
def emotionCategoryOfString (s : String) : Option EmotionCategory :=
  if s = "HAPPY" then some .HAPPY
  else if s = "SAD" then some .SAD
  else if s = "ANGRY" then some .ANGRY
  else if s = "SCARED" then some .SCARED
  else if s = "SHY" then some .SHY
  else if s = "SLEEPY" then some .SLEEPY
  else if s = "UPSET" then some .UPSET
  else if s = "CONFUSED" then some .CONFUSED
  else if s = "BORED" then some .BORED
  else if s = "LOVE" then some .LOVE
  else if s = "PROUD" then some .PROUD
  else if s = "NERVOUS" then some .NERVOUS
  else none

/-- `ContinuationCategory(value)`. -/
def continuationCategoryOfString (s : String) : Option ContinuationCategory :=
  if s = "EMOTION_EXPLORATION" then some .EMOTION_EXPLORATION
  else if s = "EMOTION_ACTION" then some .EMOTION_ACTION
  else if s = "EMOTION_LEARNING" then some .EMOTION_LEARNING
  else if s = "QUESTION_EXPANSION" then some .QUESTION_EXPANSION
  else if s = "ENCOURAGEMENT_FLOW" then some .ENCOURAGEMENT_FLOW
  else if s = "EMOTION_TRANSITION" then some .EMOTION_TRANSITION
  else none

/-- The three string fields read from the LLM's parsed JSON object
(`parsed_response.get("reaction", "EMPATHY")` etc.; `none` = key absent). -/
structure ParsedClassification where
  reaction : Option String
  emotion : Option String
  continuation : Option String

/-- Lines 656–678 of `_analyze_user_message_with_openai`: read each axis with
its default key-missing string, then convert each to its enum independently,
falling back per axis (`EMPATHY` / `HAPPY` / `QUESTION_EXPANSION`) on a
`ValueError`. -/
def analyzeParsedCategories (p : ParsedClassification) :
    ReactionCategory × EmotionCategory × ContinuationCategory :=
  let reactionStr := p.reaction.getD "EMPATHY"
  let emotionStr := p.emotion.getD "HAPPY"
  let continuationStr := p.continuation.getD "QUESTION_EXPANSION"
  ((reactionCategoryOfString reactionStr).getD .EMPATHY,
   (emotionCategoryOfString emotionStr).getD .HAPPY,
   (continuationCategoryOfString continuationStr).getD .QUESTION_EXPANSION)

/-! ## Concrete fixtures used by witnesses and counterexamples -/

/-- Oracles on which every external call raises/fails. -/
def noopFlowOracles : FlowOracles := ⟨fun _ => none, fun _ => none, fun _ => none⟩

/-- A freshly created session for the emotion `happy`. -/
def sampleSession : Session :=
  ⟨"sid-1", "happy", "KOREAN", "ENGLISH", none, none, none,
   ConversationStage.STARTER, [], [], 0, 0, 0⟩

/-- A session one voice-input away from the 7-turn limit. -/
def sixInputSession : Session :=
  { sampleSession with stage := ConversationStage.PARAPHRASE, userInputCount := 6 }

/-- A session that has already reached `FINISHER`. -/
def finisherSession : Session :=
  { sampleSession with stage := ConversationStage.FINISHER, userInputCount := 7 }

/-- A voice-input request naming a session id absent from the store. -/
def missingSessionRequest : FlowChatRequest :=
  ⟨some "nope", FlowAction.VOICE_INPUT, some "hi", none, "KOREAN", "ENGLISH",
   none, none, none, none⟩

/-- An audio environment on which every download and upload fails. -/
def trivialAudioEnv : AudioEnv Unit Unit :=
  ⟨fun _ => none, fun _ => none, (), fun _ _ => (), fun _ => (),
   fun _ => "d41d8cd9", fun _ _ => false⟩

/-- A metadata index holding one `greetings` bucket with two URLs. -/
def sampleAudioMetadata : AudioMetadata :=
  ⟨some [("from_Korean", [("Korean", ["u1", "u2"])])], none, none, none, none⟩

/-- A usage ledger where `"b"` was selected twice and `"a"` never. -/
def c5Usage : List (String × Nat) := [("b", 2)]

/-- A manager state whose `reaction` queue holds `"x"` and `""` and whose
last-selected reaction is `""` (reached by two singleton-pool selections). -/
def c4State : THMState :=
  recordUsage (recordUsage (THMState.init 10) "x" "reaction" 0) "" "reaction" 1

/-- The five category names `TemplateHistoryManager` tracks. -/
def knownCategory (category : String) : Prop :=
  category = "reaction" ∨ category = "emotion" ∨ category = "continuation" ∨
    category = "starter" ∨ category = "greeting"

/-! ## Theorems -/

/-- **C1** — claim: the `restart` action resets the turn counter, the
learned-expression list and the stage to `STARTER` in place (same session id)
and returns a normal response.  The code does reset the session in place, but
line 407 then evaluates `ConversationStage.RESTART`, a member the enum does
not declare, so every restart raises `AttributeError` and the endpoint answers
`HTTP 500` instead of a normal response — the claim (and the source's own dead
`RESTART` prompt branch at lines 1120–1130) show the intent, the enum is
missing the member.  This theorem evaluates the restart branch: the reset
happens, the response is the 500 error, for every oracle and session. -/
theorem restart_resets_in_place_but_raises_500 (o : FlowOracles) (s : Session)
    (isTts : Option Bool) :
    handleRestart o s isTts =
      (restartSession s, .error ⟨500, "Internal server error: RESTART"⟩) ∧
    (restartSession s).sessionId = s.sessionId ∧
    (restartSession s).stage = ConversationStage.STARTER ∧
    (restartSession s).userInputCount = 0 ∧
    (restartSession s).learnedExpressions = [] :=
  ⟨rfl, rfl, rfl, rfl, rfl⟩

/-- **C5 counterexample** — the claim's weight formula (`specUsageWeights`,
usage 0 for a never-selected candidate) disagrees with the source
(`usageWeights`, which first clamps every count with `max(1, ·)`): with
candidates `["a", "b"]` where `"a"` was never selected and `"b"` was selected
twice, the code assigns `"a"` weight 2 while the claim's formula assigns 3. -/
theorem usage_weights_clamp_counterexample :
    usageWeights c5Usage ["a", "b"] = [2, 1] ∧
    specUsageWeights c5Usage ["a", "b"] = [3, 1] ∧
    usageWeights c5Usage ["a", "b"] ≠ specUsageWeights c5Usage ["a", "b"] :=
  ⟨rfl, rfl, by decide⟩

/-- **C5 (amended)** — the weight assigned to each remaining candidate equals
(maximum clamped usage-count among the remaining candidates) − (that
candidate's clamped usage-count) + 1, where the clamped usage-count is
`max 1 (usage-count)`: a candidate that was never selected is treated as
having usage-count 1, not 0. -/
theorem usage_weights_formula (usage : List (String × Nat)) (templates : List String) :
    usageWeights usage templates =
      templates.map (fun t =>
        (templates.map (fun u => max 1 (lookupUsage usage u))).foldl max 0 -
          max 1 (lookupUsage usage t) + 1) := by
  simp [usageWeights, List.map_map, Function.comp]

/-- **C8** — when the parsed LLM JSON names the three axes, each axis is
converted independently: an unrecognized name yields that axis's fixed default
(`EMPATHY` / `HAPPY` / `QUESTION_EXPANSION`) while an axis naming a valid
category keeps its parsed value, whatever the other axes contain. -/
theorem classify_axis_fallback_isolated (r e c : String) :
    ((reactionCategoryOfString r = none →
        (analyzeParsedCategories ⟨some r, some e, some c⟩).1 = ReactionCategory.EMPATHY) ∧
      ∀ x, reactionCategoryOfString r = some x →
        (analyzeParsedCategories ⟨some r, some e, some c⟩).1 = x) ∧
    ((emotionCategoryOfString e = none →
        (analyzeParsedCategories ⟨some r, some e, some c⟩).2.1 = EmotionCategory.HAPPY) ∧
      ∀ x, emotionCategoryOfString e = some x →
        (analyzeParsedCategories ⟨some r, some e, some c⟩).2.1 = x) ∧
    ((continuationCategoryOfString c = none →
        (analyzeParsedCategories ⟨some r, some e, some c⟩).2.2 =
          ContinuationCategory.QUESTION_EXPANSION) ∧
      ∀ x, continuationCategoryOfString c = some x →
        (analyzeParsedCategories ⟨some r, some e, some c⟩).2.2 = x) := by
  refine ⟨⟨fun h => ?_, fun x h => ?_⟩, ⟨fun h => ?_, fun x h => ?_⟩,
    ⟨fun h => ?_, fun x h => ?_⟩⟩ <;>
    simp [analyzeParsedCategories, h]

/-- **C8 witness** — with an unrecognized reaction name and valid emotion and
continuation names, only the reaction axis falls back. -/
theorem classify_axis_fallback_isolated_witness :
    (analyzeParsedCategories ⟨some "JOYFUL", some "SAD", some "EMOTION_ACTION"⟩).1 =
      ReactionCategory.EMPATHY ∧
    (analyzeParsedCategories ⟨some "JOYFUL", some "SAD", some "EMOTION_ACTION"⟩).2.1 =
      EmotionCategory.SAD ∧
    (analyzeParsedCategories ⟨some "JOYFUL", some "SAD", some "EMOTION_ACTION"⟩).2.2 =
      ContinuationCategory.EMOTION_ACTION :=
  ⟨(classify_axis_fallback_isolated "JOYFUL" "SAD" "EMOTION_ACTION").1.1 (by rfl),
   (classify_axis_fallback_isolated "JOYFUL" "SAD" "EMOTION_ACTION").2.1.2
     EmotionCategory.SAD (by rfl),
   (classify_axis_fallback_isolated "JOYFUL" "SAD" "EMOTION_ACTION").2.2.2
     ContinuationCategory.EMOTION_ACTION (by rfl)⟩

/-- **C9** — `_find_audio_url_for_text` never consults its `to_lang`
argument (both levels of the language lookup read `from_lang`), so its result
is identical for any two target languages. -/
theorem locate_ignores_target_language (hash : String → String) (m : AudioMetadata)
    (text category fromLang toLang₁ toLang₂ : String) :
    findAudioUrlForText hash m text category fromLang toLang₁ =
      findAudioUrlForText hash m text category fromLang toLang₂ := rfl

/-- **C10** — `select_diverse_template` on an empty candidate list returns the
empty string and the state unchanged: the usage ledger, every recency queue
and every last-selected pointer are exactly those of the input state. -/
theorem select_empty_pool_is_noop (st : THMState) (category : String)
    (avoidRecent preferLessUsed : Bool) (now c : Nat) (r : ℚ) :
    selectDiverseTemplate st [] category avoidRecent preferLessUsed now c r =
      some ("", st) := rfl

/-- **C6** — `_combine_audio_files`: an empty URL list yields `none`; a
one-element list returns its URL unchanged for *every* environment (so no
download, decode or upload can influence or be required for the result); and
when every fragment's download-then-decode fails in a multi-URL batch the
result is `none`.  The function is total into `Option` (the source wraps its
whole body in `try/except → None`), so no error reaches the caller. -/
theorem combine_audio_edge_cases {β σ : Type} (env : AudioEnv β σ) (ts : Nat) :
    combineAudioFiles env ts [] = none ∧
    (∀ u : String, u ≠ "" → combineAudioFiles env ts [u] = some u) ∧
    (∀ urls : List String,
      2 ≤ (urls.filter (fun u => !(u == ""))).length →
      (∀ u ∈ urls, (env.download u).bind env.decode = none) →
      combineAudioFiles env ts urls = none) := by
  refine ⟨rfl, fun u hu => ?_, fun urls hlen hfail => ?_⟩
  · simp [combineAudioFiles, hu]
  · unfold combineAudioFiles
    cases hv : urls.filter (fun u => !(u == "")) with
    | nil => simp [hv] at hlen
    | cons a tl =>
      cases tl with
      | nil => simp [hv] at hlen
      | cons b tl' =>
        have hseg : (a :: b :: tl').filterMap (fun u => (env.download u).bind env.decode) = [] := by
          refine List.filterMap_eq_nil_iff.mpr (fun u hu => ?_)
          have : u ∈ urls.filter (fun u => !(u == "")) := hv ▸ hu
          exact hfail u (List.mem_of_mem_filter this)
        simp [hseg]

/-- **C6 witness** — the three cases at concrete inputs on an environment
where every download fails. -/
theorem combine_audio_edge_cases_witness :
    combineAudioFiles trivialAudioEnv 0 [] = none ∧
    combineAudioFiles trivialAudioEnv 0 ["a"] = some "a" ∧
    combineAudioFiles trivialAudioEnv 0 ["a", "b"] = none :=
  ⟨(combine_audio_edge_cases trivialAudioEnv 0).1,
   (combine_audio_edge_cases trivialAudioEnv 0).2.1 "a" (by decide),
   (combine_audio_edge_cases trivialAudioEnv 0).2.2 ["a", "b"] (by decide)
     (fun u _ => rfl)⟩

/-- The section dispatched for a category is empty when the metadata
dictionary has no keys. -/
theorem sectionForCategory_of_isEmpty (m : AudioMetadata) (category : String)
    (h : m.isEmpty = true) : sectionForCategory m category = [] := by
  unfold AudioMetadata.isEmpty at h
  simp only [Bool.and_eq_true, Option.isNone_iff_eq_none] at h
  obtain ⟨⟨⟨⟨hg, hr⟩, he⟩, hc⟩, ht⟩ := h
  unfold sectionForCategory
  split_ifs <;> simp [hg, hr, he, hc, ht]

/-- **C7** — `_find_audio_url_for_text`: whenever no URL of the scanned
language bucket embeds the hash of the text, the result is the bucket's first
URL (`head?`), which is `none` exactly when the category/language path is
absent or the bucket is empty. -/
theorem locate_falls_back_to_first_url (hash : String → String) (m : AudioMetadata)
    (text category fromLang toLang : String)
    (h : ∀ url ∈ audioBucket m category fromLang, isSubstrOf (hash text) url = false) :
    findAudioUrlForText hash m text category fromLang toLang =
      (audioBucket m category fromLang).head? := by
  unfold findAudioUrlForText audioBucket
  by_cases hm : m.isEmpty = true
  · rw [sectionForCategory_of_isEmpty m category hm]
    simp [hm]
  · simp only [hm, if_false, Bool.false_eq_true]
    cases hlk : List.lookup ("from_" ++ fromLang) (sectionForCategory m category) with
    | none => rfl
    | some inner =>
      have hfind : ((List.lookup fromLang inner).getD []).find?
          (fun url => !(url == "") && isSubstrOf (hash text) url) = none := by
        refine List.find?_eq_none.mpr (fun url hurl => ?_)
        have := h url (by unfold audioBucket; rw [hlk]; exact hurl)
        simp [this]
      simp [hfind]

/-- **C7 witness** — a concrete index with bucket `["u1", "u2"]` and a hash
matching no URL: the first URL is returned. -/
theorem locate_falls_back_to_first_url_witness :
    findAudioUrlForText (fun _ => "zz") sampleAudioMetadata
      "hello" "greetings" "Korean" "English" = some "u1" :=
  (locate_falls_back_to_first_url (fun _ => "zz") sampleAudioMetadata
      "hello" "greetings" "Korean" "English" (by decide)).trans rfl

/-- For the `FINISHER` stage, `_generate_openai_response_with_tts` always
returns text (the LLM failure path falls back to a canned goodbye). -/
theorem generate_finisher_never_fails (o : FlowOracles) (s : Session)
    (isTts : Option Bool) :
    ∃ text audio, generateOpenaiResponseWithTts o s ConversationStage.FINISHER isTts =
      .ok (text, audio) := by
  unfold generateOpenaiResponseWithTts
  cases hg : o.genText ConversationStage.FINISHER <;> simp [hg]

/-- **C2** — a voice-input that brings the turn counter to the configured
maximum of 7 moves the session to `FINISHER` and returns a normal response
whose stage is `FINISHER` and whose `completed` flag is true, for every
session in `STARTER` or `PARAPHRASE` and every outcome of the external
calls. -/
theorem voice_input_turn_limit_finishes (o : FlowOracles) (s : Session)
    (userInput : String) (isTts : Option Bool)
    (_hstage : s.stage = ConversationStage.STARTER ∨ s.stage = ConversationStage.PARAPHRASE)
    (hcount : s.userInputCount + 1 = 7) :
    (handleVoiceInput o s userInput isTts).1.stage = ConversationStage.FINISHER ∧
    (handleVoiceInput o s userInput isTts).1.userInputCount = 7 ∧
    ∃ text audio,
      (handleVoiceInput o s userInput isTts).2 =
        .ok ⟨s.sessionId, ConversationStage.FINISHER, text, audio, none, true,
             some "Conversation completed! Your learned expressions have been saved."⟩ := by
  have h7 : 7 ≤ s.userInputCount + 1 := by omega
  cases hg : o.genText ConversationStage.FINISHER with
  | some text =>
      refine ⟨?_, ?_, text, ttsOpt o isTts text, ?_⟩ <;>
        simp [handleVoiceInput, generateOpenaiResponseWithTts, hg, h7, hcount, ttsOpt]
  | none =>
      refine ⟨?_, ?_, finisherFallbackText s, ttsOpt o isTts (finisherFallbackText s), ?_⟩ <;>
        simp [handleVoiceInput, generateOpenaiResponseWithTts, hg, h7, hcount, ttsOpt,
          finisherFallbackText]

/-- **C2 witness** — a concrete `PARAPHRASE` session with counter 6: its next
voice-input completes the conversation. -/
theorem voice_input_turn_limit_finishes_witness :
    (handleVoiceInput noopFlowOracles sixInputSession "hi" none).1.stage =
      ConversationStage.FINISHER ∧
    (handleVoiceInput noopFlowOracles sixInputSession "hi" none).1.userInputCount = 7 ∧
    ∃ text audio,
      (handleVoiceInput noopFlowOracles sixInputSession "hi" none).2 =
        .ok ⟨sixInputSession.sessionId, ConversationStage.FINISHER, text, audio, none, true,
             some "Conversation completed! Your learned expressions have been saved."⟩ :=
  voice_input_turn_limit_finishes noopFlowOracles sixInputSession "hi" none
    (Or.inr rfl) rfl

/-- **C3 counterexample** — the claim says any action against a session
already in `FINISHER` fails with `SessionNotFound` or `InvalidTransition`;
but a voice-input against a concrete `FINISHER` session (turn counter 7)
re-enters the completion branch and returns a *normal* `.ok` response with
`completed = true`, not an error. -/
theorem finisher_voice_input_returns_ok :
    (handleVoiceInput noopFlowOracles finisherSession "hello" none).2 =
      .ok ⟨"sid-1", ConversationStage.FINISHER,
           "happy 감정에 대해 이야기해주셔서 감사해요. 새로운 expressions를 잘 배우셨어요!",
           none, none, true,
           some "Conversation completed! Your learned expressions have been saved."⟩ := rfl

/-- **C3 (amended)** — for a session already in `FINISHER` (its counter is
then ≥ 7, hence ≥ 6): `next_stage` fails with the 400 invalid-transition
error and `restart` fails with a 500 internal error, but voice-input does
*not* fail — it increments the counter, re-runs the completion branch and
returns another normal response with stage `FINISHER` and `completed = true`;
an action naming a session id absent from the store still fails with the 404
`Session not found` error. -/
theorem finisher_session_actions (o : FlowOracles) (s : Session)
    (userInput : String) (isTts : Option Bool)
    (hstage : s.stage = ConversationStage.FINISHER) :
    (6 ≤ s.userInputCount →
      ∃ text audio,
        (handleVoiceInput o s userInput isTts).2 =
          .ok ⟨s.sessionId, ConversationStage.FINISHER, text, audio, none, true,
               some "Conversation completed! Your learned expressions have been saved."⟩) ∧
    (handleNextStage o s isTts).2 =
      .error ⟨400, "Cannot proceed to next stage from current stage"⟩ ∧
    (handleRestart o s isTts).2 = .error ⟨500, "Internal server error: RESTART"⟩ ∧
    ∀ (newId : String) (now : Nat) (sessions : List (String × Session))
      (req : FlowChatRequest) (sid : String),
      req.action = FlowAction.VOICE_INPUT → req.sessionId = some sid → sid ≠ "" →
      List.lookup sid sessions = none →
      (flowChat o newId now sessions req).2 = .error ⟨404, "Session not found"⟩ := by
  refine ⟨fun hcount => ?_, ?_, rfl, ?_⟩
  · have h7 : 7 ≤ s.userInputCount + 1 := by omega
    cases hg : o.genText ConversationStage.FINISHER with
    | some text =>
        exact ⟨text, ttsOpt o isTts text,
          by simp [handleVoiceInput, generateOpenaiResponseWithTts, hg, h7, ttsOpt]⟩
    | none =>
        exact ⟨finisherFallbackText s, ttsOpt o isTts (finisherFallbackText s),
          by simp [handleVoiceInput, generateOpenaiResponseWithTts, hg, h7, ttsOpt,
            finisherFallbackText]⟩
  · simp [handleNextStage, hstage]
  · intro newId now sessions req sid haction hsid hne hlk
    simp [flowChat, haction, hsid, hne, hlk]

/-- **C3 amended witness** — the four behaviours at concrete inputs. -/
theorem finisher_session_actions_witness :
    (∃ text audio,
      (handleVoiceInput noopFlowOracles finisherSession "x" none).2 =
        .ok ⟨finisherSession.sessionId, ConversationStage.FINISHER, text, audio, none, true,
             some "Conversation completed! Your learned expressions have been saved."⟩) ∧
    (handleNextStage noopFlowOracles finisherSession none).2 =
      .error ⟨400, "Cannot proceed to next stage from current stage"⟩ ∧
    (handleRestart noopFlowOracles finisherSession none).2 =
      .error ⟨500, "Internal server error: RESTART"⟩ ∧
    (flowChat noopFlowOracles "nid" 0 [] missingSessionRequest).2 =
      .error ⟨404, "Session not found"⟩ :=
  have T := finisher_session_actions noopFlowOracles finisherSession "x" none rfl
  ⟨T.1 (by decide), T.2.1, T.2.2.1,
   T.2.2.2 "nid" 0 [] missingSessionRequest "nope" rfl rfl (by decide) rfl⟩

/-- `random.choice` only returns elements of its list. -/
theorem mem_of_pyChoice {l : List String} {c : Nat} {x : String}
    (h : pyChoice l c = some x) : x ∈ l :=
  List.get?_mem h

/-- The roulette loop only returns candidates from its pair list. -/
theorem mem_of_roulettePick (pairs : List (String × Nat)) :
    ∀ (r cum : ℚ) (x : String), roulettePick pairs r cum = some x →
      ∃ w, (x, w) ∈ pairs := by
  induction pairs with
  | nil => intro r cum x h; simp [roulettePick] at h
  | cons p rest ih =>
      intro r cum x h
      obtain ⟨t, w⟩ := p
      by_cases hr : r ≤ cum + (w : ℚ)
      · rw [roulettePick, if_pos hr] at h
        obtain rfl : t = x := Option.some.inj h
        exact ⟨w, List.mem_cons_self _ _⟩
      · rw [roulettePick, if_neg hr] at h
        obtain ⟨w', hw'⟩ := ih r (cum + (w : ℚ)) x h
        exact ⟨w', List.mem_cons_of_mem _ hw'⟩

/-- `_select_by_usage_weight` only returns elements of its candidate list. -/
theorem mem_of_selectByUsageWeight (usage : List (String × Nat)) (ts : List String)
    (c : Nat) (r : ℚ) (x : String)
    (h : selectByUsageWeight usage ts c r = some x) : x ∈ ts := by
  cases ts with
  | nil => simp [selectByUsageWeight] at h
  | cons a tl =>
      cases tl with
      | nil =>
          obtain rfl : a = x := by simpa [selectByUsageWeight] using h
          exact List.mem_singleton_self a
      | cons b tl' =>
          simp only [selectByUsageWeight] at h
          split_ifs at h
          · exact mem_of_pyChoice h
          · cases hr : roulettePick ((a :: b :: tl').zip (usageWeights usage (a :: b :: tl'))) r 0 with
            | some t =>
                rw [hr] at h
                obtain ⟨w, hw⟩ := mem_of_roulettePick _ r 0 t hr
                obtain rfl : t = x := Option.some.inj h
                exact (List.of_mem_zip hw).1
            | none =>
                rw [hr] at h
                exact List.mem_of_getLast?_eq_some h

/-- Step 1 never invents candidates. -/
theorem mem_availableAfterRecent {st : THMState} {ts : List String} {cat : String}
    {ar : Bool} {x : String} (h : x ∈ availableAfterRecent st ts cat ar) : x ∈ ts := by
  simp only [availableAfterRecent] at h
  split_ifs at h
  · exact h
  · exact List.mem_of_mem_filter h
  · exact h

/-- Step 2 never invents candidates. -/
theorem mem_availableAfterLast {st : THMState} {av : List String} {cat : String}
    {x : String} (h : x ∈ availableAfterLast st av cat) : x ∈ av := by
  cases hl : getLastUsed st cat with
  | none => simp only [availableAfterLast, hl] at h; exact h
  | some lu =>
      simp only [availableAfterLast, hl] at h
      split_ifs at h
      · exact List.mem_of_mem_filter h
      · exact h

/-- Step 3 only returns candidates of the remaining pool. -/
theorem mem_of_selectedCandidate {usage : List (String × Nat)} {av : List String}
    {pl : Bool} {c : Nat} {r : ℚ} {x : String}
    (h : selectedCandidate usage av pl c r = some x) : x ∈ av := by
  unfold selectedCandidate at h
  split_ifs at h
  · exact mem_of_selectByUsageWeight _ _ _ _ _ h
  · exact mem_of_pyChoice h

/-- A bounded-deque append either retains the appended element or (capacity
zero) leaves the queue empty. -/
theorem mem_dequeAppend_or_nil (m : Nat) (q : List String) (x : String) :
    x ∈ dequeAppend m q x ∨ dequeAppend m q x = [] := by
  unfold dequeAppend
  by_cases hlt : m < (q ++ [x]).length
  · rw [if_pos hlt]
    rcases Nat.eq_zero_or_pos m with hm | hm
    · right; subst hm; simp
    · left
      have hk : (q ++ [x]).length - m ≤ q.length := by
        simp only [List.length_append, List.length_singleton]; omega
      rw [List.drop_append_eq_append_drop, Nat.sub_eq_zero_of_le hk]
      simp
  · rw [if_neg hlt]
    left
    simp

/-- After `_record_usage` on a tracked category, the last-selected pointer of
that category holds the recorded template. -/
theorem getLastUsed_recordUsage (st : THMState) (t cat : String) (now : Nat)
    (h : knownCategory cat) :
    getLastUsed (recordUsage st t cat now) cat = some t := by
  rcases h with h | h | h | h | h <;> subst h <;> simp [recordUsage, getLastUsed]

/-- After `_record_usage` on a tracked category, the recorded template sits in
that category's recency queue — unless the queue capacity is 0 and the queue
is empty. -/
theorem recent_recordUsage (st : THMState) (t cat : String) (now : Nat)
    (h : knownCategory cat) :
    t ∈ getRecentHistory (recordUsage st t cat now) cat ∨
      getRecentHistory (recordUsage st t cat now) cat = [] := by
  rcases h with h | h | h | h | h <;> subst h <;>
    exact mem_dequeAppend_or_nil _ _ _

/-- Step 1 of the next selection: either the previously selected template is
already filtered out, or the whole pool survives the recency filter. -/
theorem availableAfterRecent_excl_or_full (st : THMState) (ts : List String)
    (cat : String) (ar : Bool) (t : String)
    (hrec : t ∈ getRecentHistory st cat ∨ getRecentHistory st cat = []) :
    t ∉ availableAfterRecent st ts cat ar ∨ availableAfterRecent st ts cat ar = ts := by
  simp only [availableAfterRecent]
  cases ar with
  | false => right; simp
  | true =>
      rw [if_pos rfl]
      by_cases he : (ts.filter (fun x => !((getRecentHistory st cat).contains x))).isEmpty
      · rw [if_pos he]; right; rfl
      · rw [if_neg he]
        rcases hrec with hrec | hrec
        · left
          intro hmem
          have hp := (List.mem_filter.mp hmem).2
          simp only [List.contains, List.elem_eq_mem, Bool.not_eq_true',
            decide_eq_false_iff_not] at hp
          exact hp hrec
        · right
          rw [hrec]
          exact List.filter_eq_self.mpr (fun a _ => rfl)

/-- Step 2 of the next selection removes the last-selected template whenever
it could otherwise still be selected: a truthy last-selected value is never in
the step-2 output, provided it was either already filtered out or at least two
candidates remain. -/
theorem not_mem_availableAfterLast (st : THMState) (av : List String) (cat t : String)
    (hlast : getLastUsed st cat = some t) (ht : t ≠ "")
    (h : t ∉ av ∨ 2 ≤ av.length) :
    t ∉ availableAfterLast st av cat := by
  simp only [availableAfterLast, hlast]
  by_cases hc : t ≠ "" ∧ t ∈ av ∧ 1 < av.length
  · rw [if_pos hc]
    intro hmem
    have hp := (List.mem_filter.mp hmem).2
    simp at hp
  · rw [if_neg hc]
    intro hmem
    apply hc
    refine ⟨ht, hmem, ?_⟩
    rcases h with h | h
    · exact absurd hmem h
    · omega

/-- `select_diverse_template` on a non-empty pool returns a member of the pool
and records exactly that member. -/
theorem selectDiverseTemplate_spec (st : THMState) (ts : List String) (cat : String)
    (ar pl : Bool) (now c : Nat) (r : ℚ) (t : String) (st' : THMState)
    (hne : ts ≠ [])
    (h : selectDiverseTemplate st ts cat ar pl now c r = some (t, st')) :
    t ∈ ts ∧ st' = recordUsage st t cat now := by
  simp only [selectDiverseTemplate] at h
  rw [if_neg (by simpa using hne)] at h
  by_cases hlen : ts.length = 1
  · rw [if_pos hlen] at h
    cases hg : ts.get? 0 with
    | none => rw [hg] at h; simp at h
    | some a =>
        rw [hg] at h
        simp only [Option.map_some'] at h
        injection h with hpair
        injection hpair with hp1 hp2
        subst hp1; subst hp2
        exact ⟨List.get?_mem hg, rfl⟩
  · rw [if_neg hlen] at h
    cases hs : selectedCandidate st.usageCount
        (availableAfterLast st (availableAfterRecent st ts cat ar) cat) pl c r with
    | none => rw [hs] at h; simp at h
    | some sel =>
        rw [hs] at h
        simp only [Option.map_some'] at h
        injection h with hpair
        injection hpair with hp1 hp2
        subst hp1; subst hp2
        exact ⟨mem_availableAfterRecent (mem_availableAfterLast (mem_of_selectedCandidate hs)),
          rfl⟩

/-- The heart of **C4**: a selection never returns the (truthy) last-selected
template of its category when at least two candidates are offered and the
last-selected value is either in the recency queue or that queue is empty. -/
theorem selectDiverseTemplate_avoids (st : THMState) (pool : List String) (cat : String)
    (ar pl : Bool) (now c : Nat) (r : ℚ) (t u : String) (st'' : THMState)
    (h2 : 2 ≤ pool.length) (ht : t ≠ "")
    (hlast : getLastUsed st cat = some t)
    (hrec : t ∈ getRecentHistory st cat ∨ getRecentHistory st cat = [])
    (h : selectDiverseTemplate st pool cat ar pl now c r = some (u, st'')) :
    u ≠ t := by
  have hne : pool ≠ [] := by
    intro he; subst he; simp at h2
  simp only [selectDiverseTemplate] at h
  rw [if_neg (by simpa using hne)] at h
  rw [if_neg (by omega)] at h
  cases hs : selectedCandidate st.usageCount
      (availableAfterLast st (availableAfterRecent st pool cat ar) cat) pl c r with
  | none => rw [hs] at h; simp at h
  | some sel =>
      rw [hs] at h
      simp only [Option.map_some'] at h
      injection h with hpair
      injection hpair with hp1 hp2
      subst hp1; subst hp2
      have humem := mem_of_selectedCandidate hs
      have hnot : t ∉ availableAfterLast st (availableAfterRecent st pool cat ar) cat := by
        apply not_mem_availableAfterLast st _ cat t hlast ht
        rcases availableAfterRecent_excl_or_full st pool cat ar t hrec with hx | hx
        · exact Or.inl hx
        · rw [hx]; exact Or.inr h2
      intro he
      exact hnot (he ▸ humem)

/-- **C4 (amended)** — two consecutive `select_diverse_template` calls on the
same category never return the same template, provided the pool offered at the
second call has at least two candidates and the first call's selection was
actually recorded against the category: the category is one of the five
tracked ones and the first pool contains no empty-string template (Python's
truthiness test `if last_used` skips the last-selected filter for `""`). -/
theorem select_no_immediate_repeat (st : THMState) (cat : String)
    (hcat : knownCategory cat)
    (pool₁ pool₂ : List String) (h1 : pool₁ ≠ []) (hne : "" ∉ pool₁)
    (h2 : 2 ≤ pool₂.length)
    (ar₁ pl₁ ar₂ pl₂ : Bool) (n₁ n₂ c₁ c₂ : Nat) (r₁ r₂ : ℚ)
    (t u : String) (st₁ st₂ : THMState)
    (hsel₁ : selectDiverseTemplate st pool₁ cat ar₁ pl₁ n₁ c₁ r₁ = some (t, st₁))
    (hsel₂ : selectDiverseTemplate st₁ pool₂ cat ar₂ pl₂ n₂ c₂ r₂ = some (u, st₂)) :
    u ≠ t := by
  obtain ⟨hmem, rfl⟩ := selectDiverseTemplate_spec st pool₁ cat ar₁ pl₁ n₁ c₁ r₁ t st₁
    h1 hsel₁
  have ht : t ≠ "" := fun h => hne (h ▸ hmem)
  exact selectDiverseTemplate_avoids _ pool₂ cat ar₂ pl₂ n₂ c₂ r₂ t u st₂ h2 ht
    (getLastUsed_recordUsage st t cat n₁ hcat)
    (recent_recordUsage st t cat n₁ hcat) hsel₂

/-- **C4 witness** — a concrete pair of consecutive calls on `reaction` with
pool `["a", "b"]`: the first returns `"a"`, the second `"b"`. -/
theorem select_no_immediate_repeat_witness :
    selectDiverseTemplate (THMState.init 10) ["a", "b"] "reaction" true true 0 0 0 =
      some ("a", recordUsage (THMState.init 10) "a" "reaction" 0) ∧
    selectDiverseTemplate (recordUsage (THMState.init 10) "a" "reaction" 0)
        ["a", "b"] "reaction" true true 1 0 0 =
      some ("b", recordUsage (recordUsage (THMState.init 10) "a" "reaction" 0)
        "b" "reaction" 1) ∧
    ("b" : String) ≠ "a" := by
  have h1 : selectDiverseTemplate (THMState.init 10) ["a", "b"] "reaction" true true 0 0 0 =
      some ("a", recordUsage (THMState.init 10) "a" "reaction" 0) := by
    simp +decide [selectDiverseTemplate, availableAfterRecent, availableAfterLast,
      selectedCandidate, selectByUsageWeight, usageWeights, lookupUsage, roulettePick,
      pyChoice, recordUsage, bumpUsage, setAssoc, getRecentHistory, getLastUsed,
      dequeAppend, THMState.init]
  have h2 : selectDiverseTemplate (recordUsage (THMState.init 10) "a" "reaction" 0)
      ["a", "b"] "reaction" true true 1 0 0 =
      some ("b", recordUsage (recordUsage (THMState.init 10) "a" "reaction" 0)
        "b" "reaction" 1) := by
    simp +decide [selectDiverseTemplate, availableAfterRecent, availableAfterLast,
      selectedCandidate, selectByUsageWeight, usageWeights, lookupUsage, roulettePick,
      pyChoice, recordUsage, bumpUsage, setAssoc, getRecentHistory, getLastUsed,
      dequeAppend, THMState.init]
  exact ⟨h1, h2,
    select_no_immediate_repeat (THMState.init 10) "reaction" (Or.inl rfl)
      ["a", "b"] ["a", "b"] (by decide) (by decide) (by decide)
      true true true true 0 1 0 0 0 0 "a" "b"
      (recordUsage (THMState.init 10) "a" "reaction" 0)
      (recordUsage (recordUsage (THMState.init 10) "a" "reaction" 0) "b" "reaction" 1)
      h1 h2⟩

/-- **C4 counterexample** — the claim as stated (over every pool of ≥ 2
templates) fails: with an empty-string template in the pool, Python's
`if last_used` truthiness test skips the last-selected filter, and once the
recency filter would empty the pool, two consecutive calls on `reaction` both
return `""`.  Starting from `c4State` (reaction queue `["x", ""]`, last
selected `""`), both consecutive calls on the two-element pool `["", "x"]`
select `""`. -/
theorem select_repeat_counterexample :
    2 ≤ (["", "x"] : List String).length ∧
    selectDiverseTemplate c4State ["", "x"] "reaction" true true 2 0 (1 / 2) =
      some ("", recordUsage c4State "" "reaction" 2) ∧
    selectDiverseTemplate (recordUsage c4State "" "reaction" 2)
        ["", "x"] "reaction" true true 3 0 (1 / 2) =
      some ("", recordUsage (recordUsage c4State "" "reaction" 2) "" "reaction" 3) := by
  refine ⟨by decide, ?_, ?_⟩ <;>
    simp +decide [selectDiverseTemplate, availableAfterRecent, availableAfterLast,
      selectedCandidate, selectByUsageWeight, usageWeights, lookupUsage, roulettePick,
      pyChoice, recordUsage, bumpUsage, setAssoc, getRecentHistory, getLastUsed,
      dequeAppend, THMState.init, c4State] <;> norm_num <;> decide

end VoiceBackend
